import Mathlib

/-!
# ocidist `pull` command: reference resolution and format dispatch

A shallow embedding of `cmd/pull.go` (`pullCmd.Run`).  The registry client, the
tar writers, the layout writer and the operating system are collaborators whose
results come from a `World`; every call to one of them, every log line and
every print is recorded in an explicit trace.  `log.Fatalf` ends the process
(`os.Exit(1)`), so deferred calls do not run after it; a normal return runs
them.
-/

namespace Ocidist

/-! ## Data model -/

/-- Raw bytes of a manifest (`[]byte`). -/
abbrev Bytes := List Nat

/-- Go `name.Repository`: a registry host and a repository path. -/
structure Repository where
  Registry : String
  RepositoryStr : String
deriving DecidableEq, Repr

/-- Go `name.Tag`: a repository together with a tag string. -/
structure Tag where
  Repository : Repository
  TagStr : String
deriving DecidableEq, Repr

/-- Go `name.Digest`: a repository together with a digest string. -/
structure Digest where
  Repository : Repository
  DigestStr : String
deriving DecidableEq, Repr

/-- Go `name.Reference` is an interface; `name.Tag` and `name.Digest` implement it.
The constructor `other` stands for any further implementation, the case in which both
type assertions of lines 110 and 112 fail. -/
inductive Reference where
  | tag (t : Tag)
  | digest (d : Digest)
  | other (name : String)
deriving DecidableEq, Repr

/-- Go `Repository.Tag(identifier)`: the tag of that name in the repository. -/
def Repository.Tag (r : Repository) (identifier : String) : Tag :=
  { Repository := r, TagStr := identifier }

/-- Go `v1.Image`, a handle. -/
structure Image where
  id : Nat
deriving DecidableEq, Repr

/-- Go `v1.ImageIndex`, a handle. -/
structure ImageIndex where
  id : Nat
deriving DecidableEq, Repr

/-- Go `remote.Descriptor`: the raw manifest and the rest of the descriptor as a handle. -/
structure Descriptor where
  Manifest : Bytes
  id : Nat
deriving DecidableEq, Repr

/-- Go `layout.Path`, the handle of an opened layout directory. -/
structure LayoutPath where
  handle : String
deriving DecidableEq, Repr

/-- Go `*os.File`, a handle. -/
structure File where
  fd : Nat
deriving DecidableEq, Repr

/-- Go `v1.Hash`. -/
structure Hash where
  Algorithm : String
  Hex : String
deriving DecidableEq, Repr

/-- Go `remote.Option`, a handle. -/
abbrev RemoteOption := Nat

/-- Go `map[string]string` holding the annotations of a layout entry, as its list of pairs. -/
abbrev Annotations := List (String × String)

/-- Package-level constants that `pull.go` uses and that are declared in another file of
package `cmd` (the three format tokens and `digestTag`), and `ocispecv1.AnnotationRefName`. -/
structure Consts where
  FormatV1Tarball : String
  FormatLegacyTarball : String
  FormatV1Layout : String
  digestTag : String
  AnnotationRefName : String
deriving DecidableEq, Repr

/-- The three case constants of the format switch are pairwise different (a Go switch
with a repeated constant case does not compile). -/
def Consts.distinct (c : Consts) : Prop :=
  c.FormatV1Tarball ≠ c.FormatLegacyTarball ∧ c.FormatV1Tarball ≠ c.FormatV1Layout ∧
    c.FormatLegacyTarball ≠ c.FormatV1Layout

instance (c : Consts) : Decidable c.distinct := by
  unfold Consts.distinct; infer_instance

/-- A format token is known when it is one of the three case constants. -/
def Consts.known (c : Consts) (format : String) : Prop :=
  format = c.FormatV1Tarball ∨ format = c.FormatLegacyTarball ∨ format = c.FormatV1Layout

instance (c : Consts) (format : String) : Decidable (c.known format) := by
  unfold Consts.known; infer_instance

/-- Package-level variables read by `pullCmd.Run`. -/
structure Globals where
  pullSavePath : String
  pullWriteFormat : String
  showInfo : Bool
  verbose : Bool
deriving DecidableEq, Repr

/-- Go `error` values that reach the final check of line 159: an error returned by a
collaborator, or the error built by `fmt.Errorf("unknown format: %s", ...)` on line 156. -/
inductive GoError where
  | ext (msg : String)
  | unknownFormat (format : String)
deriving DecidableEq, Repr

/-- The `log.Fatalf` call sites of `pullCmd.Run`. -/
inductive Fatal where
  /-- Line 46, "parsing reference %q: %v". -/
  | parsingReference (image : String) (e : String)
  /-- Lines 57, 62 and 93, "error getting manifest: %v". -/
  | gettingManifest (e : String)
  /-- Line 71, "unable to indent json: %v". -/
  | unableToIndent (e : String)
  /-- Line 86, "error pulling image ref: %v". -/
  | pullingImageRef (e : String)
  /-- Line 97, "error getting digest: %v". -/
  | gettingDigest (e : String)
  /-- Line 114, "ref wasn't a tag or digest". -/
  | notTagOrDigest
  /-- Line 125, "unable to open %s to write legacy tar file: %v". -/
  | unableToOpenLegacy (path : String) (e : String)
  /-- Line 134, "could not write to path %s: %v". -/
  | couldNotWritePath (path : String) (e : String)
  /-- Line 150, "provided image is neither an image nor an index: %s". -/
  | neitherImageNorIndex (image : String)
  /-- Line 160, "error saving: %v". -/
  | errorSaving (err : GoError)
deriving DecidableEq, Repr

/-- Observable steps of one run: calls to collaborators (recorded when the call is made,
with its arguments), log lines and prints. -/
inductive Event where
  | parseReference (image : String)
  | apiOptions
  | logPrintln (msg : String)
  | craneManifest (image : String)
  | remoteGet (ref : Reference) (options : List RemoteOption)
  | logReferencedManifest (manifest : Bytes)
  | jsonIndent (manifest : Bytes)
  | printIndented (out : String)
  | cranePull (image : String)
  | descImage (desc : Descriptor)
  | logEndedPull
  | rawManifest (img : Image)
  | imgDigest (img : Image)
  | logImageManifest (digest : Hash) (len : Nat)
  | printManifest (manifest : Bytes)
  | craneSave (img : Image) (image : String) (path : String)
  | v1WriteToFile (path : String) (tag : Tag) (img : Image)
  | osCreate (path : String)
  | legacyWrite (tag : Tag) (img : Image) (w : File)
  | fileClose (w : File)
  | layoutFromPath (path : String)
  | layoutWrite (path : String)
  | descImageIndex (desc : Descriptor)
  | appendIndex (p : LayoutPath) (ii : ImageIndex) (annotations : Annotations)
  | appendImage (p : LayoutPath) (im : Image) (annotations : Annotations)
  | logEndedSave
  | logSavedInTo (path : String)
deriving DecidableEq, Repr

/-- Calls that go to the registry. -/
def Event.isFetch : Event → Bool
  | .craneManifest _ => true
  | .remoteGet _ _ => true
  | .cranePull _ => true
  | .descImage _ => true
  | .descImageIndex _ => true
  | _ => false

/-- Calls that touch the local filesystem (create, write, append, open, close). -/
def Event.isFilesystem : Event → Bool
  | .craneSave _ _ _ => true
  | .v1WriteToFile _ _ _ => true
  | .osCreate _ => true
  | .legacyWrite _ _ _ => true
  | .fileClose _ => true
  | .layoutFromPath _ => true
  | .layoutWrite _ => true
  | .appendIndex _ _ _ => true
  | .appendImage _ _ _ => true
  | _ => false

/-- Calls to a persistence writer. -/
def Event.isWriter : Event → Bool
  | .craneSave _ _ _ => true
  | .v1WriteToFile _ _ _ => true
  | .legacyWrite _ _ _ => true
  | .appendIndex _ _ _ => true
  | .appendImage _ _ _ => true
  | _ => false

/-- Calls to one of the two tar writers. -/
def Event.isTarWriter : Event → Bool
  | .v1WriteToFile _ _ _ => true
  | .legacyWrite _ _ _ => true
  | _ => false

/-- Calls to `Layout.AppendIndex` or `Layout.AppendImage`. -/
def Event.isAppend : Event → Bool
  | .appendIndex _ _ _ => true
  | .appendImage _ _ _ => true
  | _ => false

/-- Results of the collaborators, one field per call site of `pullCmd.Run`.  An error is
carried as its message; a writer returns `none` for a nil error. -/
structure World where
  /-- Line 44, `name.ParseReference(image)`. -/
  parseReference : String → Except String Reference
  /-- Line 49, `apiOptions()`: simple, msg, options. -/
  apiOptions : Bool × String × List RemoteOption
  /-- Line 55, `crane.Manifest(image)`. -/
  craneManifest : String → Except String Bytes
  /-- Line 60, `remote.Get(ref, options...)`. -/
  remoteGet : Reference → List RemoteOption → Except String Descriptor
  /-- Line 70, `json.Indent(&out, manifest, "", "\t")`. -/
  jsonIndent : Bytes → Except String String
  /-- Line 80, `crane.Pull(image)`. -/
  cranePull : String → Except String Image
  /-- Line 82, `desc.Image()`. -/
  descImage : Descriptor → Except String Image
  /-- Line 91, `img.RawManifest()`. -/
  rawManifest : Image → Except String Bytes
  /-- Line 95, `img.Digest()`. -/
  imgDigest : Image → Except String Hash
  /-- Line 107, `crane.Save(img, image, pullSavePath)`. -/
  craneSave : Image → String → String → Option String
  /-- Line 121, `v1tarball.WriteToFile(pullSavePath, tag, img)`. -/
  v1WriteToFile : String → Tag → Image → Option String
  /-- Line 123, `os.Create(pullSavePath)`. -/
  osCreate : String → Except String File
  /-- Line 128, `legacytarball.Write(tag, img, w)`. -/
  legacyWrite : Tag → Image → File → Option String
  /-- Line 130, `layout.FromPath(pullSavePath)`. -/
  layoutFromPath : String → Except String LayoutPath
  /-- Line 132, `layout.Write(pullSavePath, empty.Index)`. -/
  layoutWrite : String → Except String LayoutPath
  /-- Line 142, `desc.ImageIndex()`. -/
  descImageIndex : Descriptor → Except String ImageIndex
  /-- Line 148, `desc.Image()`, the second call. -/
  descImageFallback : Descriptor → Except String Image
  /-- Line 144, `p.AppendIndex(ii, layout.WithAnnotations(annotations))`. -/
  appendIndex : LayoutPath → ImageIndex → Annotations → Option String
  /-- Line 152, `p.AppendImage(im, layout.WithAnnotations(annotations))`. -/
  appendImage : LayoutPath → Image → Annotations → Option String

/-! ## Execution model -/

/-- Running state: the trace so far and the deferred calls, most recent first. -/
structure St where
  trace : List Event
  deferred : List Event
deriving DecidableEq, Repr

/-- Result of a step: a value, a `log.Fatalf` (the process exits), or a panic
(nil pointer dereference). -/
inductive Res (α : Type) where
  | ok (a : α) (s : St)
  | exit (f : Fatal) (s : St)
  | panic (s : St)

/-- Computations of `pullCmd.Run`. -/
def M (α : Type) : Type := St → Res α

/-- Sequencing: a `log.Fatalf` or a panic ends the computation. -/
def M.bind {α β : Type} (m : M α) (k : α → M β) : M β := fun s =>
  match m s with
  | .ok a s1 => k a s1
  | .exit f s1 => .exit f s1
  | .panic s1 => .panic s1

instance : Monad M where
  pure a := fun s => .ok a s
  bind := M.bind

/-- Record one event. -/
def emit (e : Event) : M Unit := fun s => .ok () { s with trace := s.trace ++ [e] }

/-- Go `log.Fatalf`: the process exits. -/
def fatalf {α : Type} (f : Fatal) : M α := fun s => .exit f s

/-- Go `defer`: the call runs when `Run` returns. -/
def deferCall (e : Event) : M Unit := fun s => .ok () { s with deferred := e :: s.deferred }

/-- Method call on a nil `*remote.Descriptor`. -/
def nilDeref {α : Type} : M α := fun s => .panic s

/-- Call a collaborator: record the call, and `log.Fatalf` when it returns an error. -/
def call {α : Type} (e : Event) (r : Except String α) (onErr : String → Fatal) : M α := do
  emit e
  match r with
  | .error x => fatalf (onErr x)
  | .ok a => pure a

/-- How a run ends. -/
inductive Outcome where
  | returned
  | exited (f : Fatal)
  | panicked
deriving DecidableEq, Repr

/-- The whole trace of a run and how it ended. -/
structure Result where
  trace : List Event
  outcome : Outcome
deriving DecidableEq, Repr

/-- Run a computation from the empty state.  The deferred calls run on return and on
panic, not after `log.Fatalf`. -/
def M.finish (m : M Unit) : Result :=
  match m { trace := [], deferred := [] } with
  | .ok _ s => { trace := s.trace ++ s.deferred, outcome := .returned }
  | .exit f s => { trace := s.trace, outcome := .exited f }
  | .panic s => { trace := s.trace ++ s.deferred, outcome := .panicked }

/-- The events a computation records when run from the empty state. -/
def M.traceOf {α : Type} (m : M α) : List Event :=
  match m { trace := [], deferred := [] } with
  | .ok _ s => s.trace
  | .exit _ s => s.trace
  | .panic s => s.trace

/-! ## `pullCmd.Run` -/

/-- Lines 43-102: parse the reference, fetch the root manifest, materialize the image,
read its manifest and digest.  Yields `ref`, `simple`, `desc` and `img`. -/
def fetch (w : World) (g : Globals) (image : String) :
    M (Reference × Bool × Option Descriptor × Image) := do
  let ref ← call (.parseReference image) (w.parseReference image) (Fatal.parsingReference image)
  emit .apiOptions
  let (simple, msg, options) := w.apiOptions
  emit (.logPrintln msg)
  let mut desc : Option Descriptor := none
  let mut manifest : Bytes := []
  if simple then
    manifest ← call (.craneManifest image) (w.craneManifest image) Fatal.gettingManifest
  else
    let d ← call (.remoteGet ref options) (w.remoteGet ref options) Fatal.gettingManifest
    desc := some d
    manifest := d.Manifest
  if g.showInfo || g.verbose then
    emit (.logReferencedManifest manifest)
  let out ← call (.jsonIndent manifest) (w.jsonIndent manifest) Fatal.unableToIndent
  emit (.printIndented out)
  let img ←
    if simple then
      call (.cranePull image) (w.cranePull image) Fatal.pullingImageRef
    else
      match desc with
      | none => nilDeref
      | some d => call (.descImage d) (w.descImage d) Fatal.pullingImageRef
  emit .logEndedPull
  manifest ← call (.rawManifest img) (w.rawManifest img) Fatal.gettingManifest
  let digest ← call (.imgDigest img) (w.imgDigest img) Fatal.gettingDigest
  if g.showInfo || g.verbose then
    emit (.logImageManifest digest manifest.length)
  emit (.printManifest manifest)
  return (ref, simple, desc, img)

/-- Lines 110-117: the tag handed to the tar writers; `none` is the `log.Fatalf` of
line 114. -/
def resolveTag (c : Consts) (ref : Reference) : Option Tag :=
  match ref with
  | .tag t => some t
  | .digest d => some (d.Repository.Tag c.digestTag)
  | .other _ => none

/-- Lines 106-158: the save step.  `err` is the variable declared on line 40 as it
stands after line 98; the value returned is that variable as it stands on line 159.
The cases for the legacy tarball and the layout declare their own `err` with `:=`
(lines 123 and 130), and their later assignments go to that variable. -/
def save (c : Consts) (w : World) (g : Globals) (image : String) (ref : Reference)
    (simple : Bool) (desc : Option Descriptor) (img : Image) (err : Option GoError) :
    M (Option GoError) := do
  if simple then
    emit (.craneSave img image g.pullSavePath)
    return (w.craneSave img image g.pullSavePath).map GoError.ext
  else
    let tag ← match resolveTag c ref with
      | none => fatalf Fatal.notTagOrDigest
      | some t => pure t
    if g.pullWriteFormat = c.FormatV1Tarball then
      emit (.v1WriteToFile g.pullSavePath tag img)
      return (w.v1WriteToFile g.pullSavePath tag img).map GoError.ext
    else if g.pullWriteFormat = c.FormatLegacyTarball then
      let f ← call (.osCreate g.pullSavePath) (w.osCreate g.pullSavePath)
        (Fatal.unableToOpenLegacy g.pullSavePath)
      deferCall (.fileClose f)
      emit (.legacyWrite tag img f)
      let _errCase := (w.legacyWrite tag img f).map GoError.ext
      return err
    else if g.pullWriteFormat = c.FormatV1Layout then
      emit (.layoutFromPath g.pullSavePath)
      let p ← match w.layoutFromPath g.pullSavePath with
        | .ok p => pure p
        | .error _ =>
          call (.layoutWrite g.pullSavePath) (w.layoutWrite g.pullSavePath)
            (Fatal.couldNotWritePath g.pullSavePath)
      let annotations : Annotations := [(c.AnnotationRefName, image)]
      match desc with
      | none => nilDeref
      | some d =>
        emit (.descImageIndex d)
        match w.descImageIndex d with
        | .ok ii =>
          emit (.appendIndex p ii annotations)
          let _errCase := (w.appendIndex p ii annotations).map GoError.ext
          return err
        | .error _ =>
          emit (.descImage d)
          match w.descImageFallback d with
          | .error _ => fatalf (Fatal.neitherImageNorIndex image)
          | .ok im =>
            emit (.appendImage p im annotations)
            let _errCase := (w.appendImage p im annotations).map GoError.ext
            return err
    else
      return some (GoError.unknownFormat g.pullWriteFormat)

/-- Lines 33-165, `pullCmd.Run` with `image = args[0]`. -/
def Run (c : Consts) (w : World) (g : Globals) (image : String) : M Unit := do
  let (ref, simple, desc, img) ← fetch w g image
  let err ← save c w g image ref simple desc img none
  match err with
  | some e => fatalf (Fatal.errorSaving e)
  | none =>
    emit .logEndedSave
    emit (.logSavedInTo g.pullSavePath)

/-- One execution of the pull command. -/
def pull (c : Consts) (w : World) (g : Globals) (image : String) : Result :=
  (Run c w g image).finish

/-! ## Conditions and example inputs used by the theorems -/

/-- The fetch stage succeeds on the non-simple path: `apiOptions` selects the non-simple
path, the reference parses to `ref`, `remote.Get` returns `desc`, the manifest indents,
`desc.Image()` returns `img`, and the image gives its raw manifest and digest. -/
def FetchOk (w : World) (image : String) (ref : Reference) (desc : Descriptor)
    (img : Image) : Prop :=
  w.apiOptions.1 = false ∧ w.parseReference image = .ok ref ∧
    w.remoteGet ref w.apiOptions.2.2 = .ok desc ∧
    (∃ out, w.jsonIndent desc.Manifest = .ok out) ∧ w.descImage desc = .ok img ∧
    (∃ m, w.rawManifest img = .ok m) ∧ (∃ dg, w.imgDigest img = .ok dg)

/-- The fetch stage succeeds on the simple path: `crane.Manifest` and `crane.Pull`
succeed with image `img`. -/
def SimpleFetchOk (w : World) (image : String) (img : Image) : Prop :=
  w.apiOptions.1 = true ∧ (∃ ref, w.parseReference image = .ok ref) ∧
    (∃ mf out, w.craneManifest image = .ok mf ∧ w.jsonIndent mf = .ok out) ∧
    w.cranePull image = .ok img ∧
    (∃ m, w.rawManifest img = .ok m) ∧ (∃ dg, w.imgDigest img = .ok dg)

/-- The `log.Fatalf` call sites of the fetch stage (lines 43-102). -/
def Fatal.fromFetch : Fatal → Bool
  | .parsingReference _ _ => true
  | .gettingManifest _ => true
  | .unableToIndent _ => true
  | .pullingImageRef _ => true
  | .gettingDigest _ => true
  | _ => false

/-- The same globals with another format token. -/
def Globals.withFormat (g : Globals) (format : String) : Globals :=
  { g with pullWriteFormat := format }

/-- Example constants: the format tokens named by the help text of the `format` flag
(line 172), the placeholder tag, and the OCI ref-name annotation key. -/
def exConsts : Consts :=
  { FormatV1Tarball := "v1-tarball"
    FormatLegacyTarball := "legacy-tarball"
    FormatV1Layout := "v1-layout"
    digestTag := "i-was-a-digest"
    AnnotationRefName := "org.opencontainers.image.ref.name" }

/-- Example repository. -/
def exRepo : Repository := { Registry := "registry.example.com", RepositoryStr := "app" }

/-- Example tag reference `registry.example.com/app:v1`. -/
def exTag : Tag := { Repository := exRepo, TagStr := "v1" }

/-- Example reference string. -/
def exImage : String := "registry.example.com/app:v1"

/-- Example descriptor. -/
def exDesc : Descriptor := { Manifest := [123, 125], id := 7 }

/-- Example world: non-simple path, every collaborator succeeds, the target path already
holds a layout, and the descriptor is an index. -/
def exWorld : World :=
  { parseReference := fun _ => .ok (.tag exTag)
    apiOptions := (false, "using default options", [])
    craneManifest := fun _ => .ok [123, 125]
    remoteGet := fun _ _ => .ok exDesc
    jsonIndent := fun _ => .ok "manifest"
    cranePull := fun _ => .ok { id := 3 }
    descImage := fun _ => .ok { id := 3 }
    rawManifest := fun _ => .ok [123, 125]
    imgDigest := fun _ => .ok { Algorithm := "sha256", Hex := "ab" }
    craneSave := fun _ _ _ => none
    v1WriteToFile := fun _ _ _ => none
    osCreate := fun _ => .ok { fd := 5 }
    legacyWrite := fun _ _ _ => none
    layoutFromPath := fun _ => .ok { handle := "existing" }
    layoutWrite := fun _ => .ok { handle := "created" }
    descImageIndex := fun _ => .ok { id := 9 }
    descImageFallback := fun _ => .ok { id := 4 }
    appendIndex := fun _ _ _ => none
    appendImage := fun _ _ _ => none }

/-- Example world in which `legacytarball.Write` returns an error. -/
def exWorldLegacyWriteFails : World :=
  { exWorld with legacyWrite := fun _ _ _ => some "no space left on device" }

/-- Example world in which `AppendIndex` returns an error. -/
def exWorldAppendIndexFails : World :=
  { exWorld with appendIndex := fun _ _ _ => some "no space left on device" }

/-- Example world in which the descriptor is neither an index nor an image at the
fallback of the layout case. -/
def exWorldNeither : World :=
  { exWorld with
    descImageIndex := fun _ => .error "not an index"
    descImageFallback := fun _ => .error "not an image" }

/-- Example world in which `desc.Image()` of line 82 fails. -/
def exWorldImageFails : World :=
  { exWorld with descImage := fun _ => .error "no child with platform linux/amd64" }

/-- Example world in which the target path holds no layout yet. -/
def exWorldNoLayout : World :=
  { exWorld with layoutFromPath := fun _ => .error "no index.json" }

/-- Example world in which `apiOptions` selects the simple path. -/
def exWorldSimple : World :=
  { exWorld with apiOptions := (true, "using simple API", []) }

/-- Example globals: target path `/tmp/out` and the given format token. -/
def exGlobals (format : String) : Globals :=
  { pullSavePath := "/tmp/out", pullWriteFormat := format, showInfo := false, verbose := false }

/-! ## Lemmas on the execution model -/

theorem call_eq {α : Type} (e : Event) (r : Except String α) (onErr : String → Fatal) (s : St) :
    call e r onErr s =
      match r with
      | .error x => .exit (onErr x) { trace := s.trace ++ [e], deferred := s.deferred }
      | .ok a => .ok a { trace := s.trace ++ [e], deferred := s.deferred } := by
  cases r <;> rfl

/-- The fetch stage never panics, records no filesystem call, leaves the deferred calls
alone, exits only through its own `log.Fatalf` calls, and yields `simple` as `apiOptions`
gave it. -/
theorem fetch_spec (w : World) (g : Globals) (image : String) (s : St) :
    ∃ tr, (∀ e ∈ tr, e.isFilesystem = false) ∧
      ((∃ f, fetch w g image s = .exit f { trace := s.trace ++ tr, deferred := s.deferred } ∧
          f.fromFetch = true) ∨
       (∃ ref desc img, fetch w g image s =
          .ok (ref, w.apiOptions.1, desc, img)
            { trace := s.trace ++ tr, deferred := s.deferred })) := by
  generalize hF : fetch w g image s = r
  rcases hA : w.apiOptions with ⟨sim, msg, opts⟩
  rcases hP : w.parseReference image with e | ref
  swap
  · cases sim
    · rcases hG : w.remoteGet ref opts with e | d
      swap
      rcases hI : w.jsonIndent d.Manifest with e | out
      swap
      rcases hD : w.descImage d with e | img
      swap
      rcases hR : w.rawManifest img with e | m
      swap
      rcases hDg : w.imgDigest img with e | dg
      all_goals
        cases hv : (g.showInfo || g.verbose) <;>
        simp [fetch, bind, M.bind, call_eq, emit, pure, nilDeref, fatalf, *] at hF <;>
        subst hF <;>
        first
          | exact ⟨_, by simp [Event.isFilesystem], Or.inl ⟨_, rfl, rfl⟩⟩
          | exact ⟨_, by simp [Event.isFilesystem], Or.inr ⟨_, _, _, rfl⟩⟩
    · rcases hG : w.craneManifest image with e | mf
      swap
      rcases hI : w.jsonIndent mf with e | out
      swap
      rcases hD : w.cranePull image with e | img
      swap
      rcases hR : w.rawManifest img with e | m
      swap
      rcases hDg : w.imgDigest img with e | dg
      all_goals
        cases hv : (g.showInfo || g.verbose) <;>
        simp [fetch, bind, M.bind, call_eq, emit, pure, nilDeref, fatalf, *] at hF <;>
        subst hF <;>
        first
          | exact ⟨_, by simp [Event.isFilesystem], Or.inl ⟨_, rfl, rfl⟩⟩
          | exact ⟨_, by simp [Event.isFilesystem], Or.inr ⟨_, _, _, rfl⟩⟩
  · simp [fetch, bind, M.bind, call_eq, emit, pure, nilDeref, fatalf, *] at hF
    subst hF
    exact ⟨_, by simp [Event.isFilesystem], Or.inl ⟨_, rfl, rfl⟩⟩

/-- No event of the fetch stage is a filesystem call. -/
theorem fetch_traceOf_no_fs (w : World) (g : Globals) (image : String) :
    ∀ e ∈ (fetch w g image).traceOf, e.isFilesystem = false := by
  obtain ⟨tr, htr, h⟩ := fetch_spec w g image { trace := [], deferred := [] }
  rcases h with ⟨f, h, -⟩ | ⟨ref, desc, img, h⟩ <;> simpa [M.traceOf, h] using htr

/-- When the fetch stage succeeds on the non-simple path it yields `ref`, `desc` and
`img`, and appends its events to the trace. -/
theorem fetch_ok (w : World) (g : Globals) (image : String) (ref : Reference)
    (desc : Descriptor) (img : Image) (h : FetchOk w image ref desc img) (s : St) :
    fetch w g image s = .ok (ref, false, some desc, img)
      { trace := s.trace ++ (fetch w g image).traceOf, deferred := s.deferred } := by
  obtain ⟨hs, hp, hg, ⟨out, hi⟩, hd, ⟨m, hr⟩, ⟨dg, hdg⟩⟩ := h
  rcases hA : w.apiOptions with ⟨sim, msg, opts⟩
  rw [hA] at hs hg
  simp only at hs hg
  subst hs
  cases hv : (g.showInfo || g.verbose) <;>
  simp [M.traceOf, fetch, bind, M.bind, call_eq, emit, pure, hA, hp, hg, hi, hd, hr, hdg, hv]

/-- When the fetch stage succeeds on the simple path it yields `img` and no descriptor. -/
theorem fetch_simple_ok (w : World) (g : Globals) (image : String) (img : Image)
    (h : SimpleFetchOk w image img) (s : St) :
    ∃ ref, fetch w g image s = .ok (ref, true, none, img)
      { trace := s.trace ++ (fetch w g image).traceOf, deferred := s.deferred } := by
  obtain ⟨hs, ⟨ref, hp⟩, ⟨mf, out, hm, hi⟩, hd, ⟨m, hr⟩, ⟨dg, hdg⟩⟩ := h
  rcases hA : w.apiOptions with ⟨sim, msg, opts⟩
  rw [hA] at hs
  simp only at hs
  subst hs
  refine ⟨ref, ?_⟩
  cases hv : (g.showInfo || g.verbose) <;>
  simp [M.traceOf, fetch, bind, M.bind, call_eq, emit, pure, hA, hp, hm, hi, hd, hr, hdg, hv]

theorem isAppend_isFilesystem (e : Event) (h : e.isFilesystem = false) : e.isAppend = false := by
  cases e <;> simp_all [Event.isFilesystem, Event.isAppend]

theorem isWriter_isFilesystem (e : Event) (h : e.isFilesystem = false) : e.isWriter = false := by
  cases e <;> simp_all [Event.isFilesystem, Event.isWriter]

theorem isTarWriter_isFilesystem (e : Event) (h : e.isFilesystem = false) :
    e.isTarWriter = false := by
  cases e <;> simp_all [Event.isFilesystem, Event.isTarWriter]

theorem fetch_filter_isAppend (w : World) (g : Globals) (image : String) :
    (fetch w g image).traceOf.filter Event.isAppend = [] := by
  rw [List.filter_eq_nil_iff]
  intro e he
  simp [isAppend_isFilesystem e (fetch_traceOf_no_fs w g image e he)]

theorem fetch_filter_isWriter (w : World) (g : Globals) (image : String) :
    (fetch w g image).traceOf.filter Event.isWriter = [] := by
  rw [List.filter_eq_nil_iff]
  intro e he
  simp [isWriter_isFilesystem e (fetch_traceOf_no_fs w g image e he)]

theorem fetch_filter_isTarWriter (w : World) (g : Globals) (image : String) :
    (fetch w g image).traceOf.filter Event.isTarWriter = [] := by
  rw [List.filter_eq_nil_iff]
  intro e he
  simp [isTarWriter_isFilesystem e (fetch_traceOf_no_fs w g image e he)]

theorem fetch_not_mem (w : World) (g : Globals) (image : String) (e : Event)
    (h : e.isFilesystem = true) : e ∉ (fetch w g image).traceOf := by
  intro he
  have := fetch_traceOf_no_fs w g image e he
  simp [h] at this

/-- On the success path of the non-simple fetch stage the trace holds the manifest fetch
and the image materialization. -/
theorem fetch_ok_mem (w : World) (g : Globals) (image : String) (ref : Reference)
    (desc : Descriptor) (img : Image) (h : FetchOk w image ref desc img) :
    Event.remoteGet ref w.apiOptions.2.2 ∈ (fetch w g image).traceOf ∧
      Event.descImage desc ∈ (fetch w g image).traceOf := by
  obtain ⟨hs, hp, hg, ⟨out, hi⟩, hd, ⟨m, hr⟩, ⟨dg, hdg⟩⟩ := h
  rcases hA : w.apiOptions with ⟨sim, msg, opts⟩
  rw [hA] at hs hg
  simp only at hs hg
  subst hs
  cases hv : (g.showInfo || g.verbose) <;>
  simp [M.traceOf, fetch, bind, M.bind, call_eq, emit, pure, hA, hp, hg, hi, hd, hr, hdg, hv]

/-- The example world passes the fetch stage on the non-simple path. -/
theorem exWorld_fetchOk : FetchOk exWorld exImage (.tag exTag) exDesc { id := 3 } :=
  ⟨rfl, rfl, rfl, ⟨_, rfl⟩, rfl, ⟨_, rfl⟩, ⟨_, rfl⟩⟩

/-- The v1-tarball case assigns the writer's error to the `err` of line 40: when
`v1tarball.WriteToFile` returns an error the run ends with "error saving" and does not log
"saved in to". -/
theorem v1tarball_writer_error_is_reported (c : Consts) (w : World) (g : Globals)
    (image : String) (ref : Reference) (t : Tag) (desc : Descriptor) (img : Image) (e : String)
    (hf : FetchOk w image ref desc img) (ht : resolveTag c ref = some t)
    (hfmt : g.pullWriteFormat = c.FormatV1Tarball)
    (hw : w.v1WriteToFile g.pullSavePath t img = some e) :
    (pull c w g image).outcome = .exited (.errorSaving (.ext e)) ∧
      Event.logSavedInTo g.pullSavePath ∉ (pull c w g image).trace := by
  have hF := fetch_ok w g image ref desc img hf
  have hN : Event.logSavedInTo g.pullSavePath ∉ (fetch w g image).traceOf := by
    obtain ⟨hs, hp, hg, ⟨out, hi⟩, hd, ⟨m, hr⟩, ⟨dg, hdg⟩⟩ := hf
    rcases hA : w.apiOptions with ⟨sim, msg, opts⟩
    rw [hA] at hs hg
    simp only at hs hg
    subst hs
    cases hv : (g.showInfo || g.verbose) <;>
    simp [M.traceOf, fetch, bind, M.bind, call_eq, emit, pure, hA, hp, hg, hi, hd, hr, hdg, hv]
  simp [pull, M.finish, Run, save, bind, M.bind, hF, ht, hfmt, hw, emit, pure, fatalf, hN]

/-- The v1-layout case drops the error of `AppendIndex` in the same way as the
legacy-tarball case drops the writer's: the run returns and logs "saved in to". -/
theorem layout_append_error_reported_as_saved :
    exWorldAppendIndexFails.appendIndex { handle := "existing" } { id := 9 }
        [("org.opencontainers.image.ref.name", exImage)] = some "no space left on device" ∧
    (pull exConsts exWorldAppendIndexFails (exGlobals "v1-layout") exImage).outcome =
      .returned ∧
    Event.logSavedInTo "/tmp/out" ∈
      (pull exConsts exWorldAppendIndexFails (exGlobals "v1-layout") exImage).trace := by
  decide

/-! ## The claims -/

/-- Claim C1, evaluated on the code: with the format `legacy-tarball`, a successful
`os.Create` and a `legacytarball.Write` that returns an error, the run calls the writer,
returns normally and logs "saved in to /tmp/out"; it does not end with "error saving".
The writer's error is assigned to the `err` declared on line 123, and line 159 tests the
`err` of line 40. -/
theorem C1_legacy_writer_error_reported_as_saved :
    exWorldLegacyWriteFails.legacyWrite exTag { id := 3 } { fd := 5 } =
      some "no space left on device" ∧
    Event.legacyWrite exTag { id := 3 } { fd := 5 } ∈
      (pull exConsts exWorldLegacyWriteFails (exGlobals "legacy-tarball") exImage).trace ∧
    (pull exConsts exWorldLegacyWriteFails (exGlobals "legacy-tarball") exImage).outcome =
      .returned ∧
    Event.logSavedInTo "/tmp/out" ∈
      (pull exConsts exWorldLegacyWriteFails (exGlobals "legacy-tarball") exImage).trace := by
  decide

/-- Claim C2 as stated fails: with the unknown format token `bogus` on the non-simple
path the run ends with the unknown-format error, and its trace up to that failure holds
registry fetches, among them `remote.Get`. -/
theorem C2_counterexample_fetch_precedes_rejection :
    ¬ exConsts.known "bogus" ∧
    (pull exConsts exWorld (exGlobals "bogus") exImage).outcome =
      .exited (.errorSaving (.unknownFormat "bogus")) ∧
    (pull exConsts exWorld (exGlobals "bogus") exImage).trace.any Event.isFetch = true ∧
    Event.remoteGet (.tag exTag) [] ∈
      (pull exConsts exWorld (exGlobals "bogus") exImage).trace := by
  decide

/-- Claim C2, amended: on the non-simple path, for every reference string and every format
token that is not one of the three known formats, the run ends in a `log.Fatalf` and its
trace holds no filesystem call (no file or directory is created, no writer is called).
When the fetch stage succeeds and the reference is a tag or a digest, that failure is the
unknown-format error, and it comes after the registry fetches: the trace is the trace of
the fetch stage, which holds `remote.Get` and `desc.Image()`. -/
theorem C2_unknown_format_rejected_after_fetch (c : Consts) (w : World) (g : Globals)
    (image : String) (hs : w.apiOptions.1 = false) (hu : ¬ c.known g.pullWriteFormat) :
    (∃ f, (pull c w g image).outcome = .exited f) ∧
    (∀ e ∈ (pull c w g image).trace, e.isFilesystem = false) ∧
    (∀ ref desc img, FetchOk w image ref desc img → (resolveTag c ref).isSome = true →
      (pull c w g image).outcome =
        .exited (.errorSaving (.unknownFormat g.pullWriteFormat)) ∧
      (pull c w g image).trace = (fetch w g image).traceOf ∧
      Event.remoteGet ref w.apiOptions.2.2 ∈ (pull c w g image).trace ∧
      Event.descImage desc ∈ (pull c w g image).trace) := by
  simp only [Consts.known, not_or] at hu
  obtain ⟨h1, h2, h3⟩ := hu
  refine ⟨?_, ?_, ?_⟩
  · obtain ⟨tr, htr, h⟩ := fetch_spec w g image { trace := [], deferred := [] }
    rw [hs] at h
    rcases h with ⟨x, h, -⟩ | ⟨ref, desc, img, h⟩
    · simp [pull, M.finish, Run, bind, M.bind, h]
    · rcases ht : resolveTag c ref with _ | t <;>
      simp [pull, M.finish, Run, save, bind, M.bind, h, ht, h1, h2, h3, fatalf, pure]
  · obtain ⟨tr, htr, h⟩ := fetch_spec w g image { trace := [], deferred := [] }
    rw [hs] at h
    rcases h with ⟨x, h, -⟩ | ⟨ref, desc, img, h⟩
    · simpa [pull, M.finish, Run, bind, M.bind, h] using htr
    · rcases ht : resolveTag c ref with _ | t <;>
      simpa [pull, M.finish, Run, save, bind, M.bind, h, ht, h1, h2, h3, fatalf, pure] using htr
  · intro ref desc img hf hr
    obtain ⟨t, ht⟩ := Option.isSome_iff_exists.mp hr
    have hF := fetch_ok w g image ref desc img hf
    have hM := fetch_ok_mem w g image ref desc img hf
    simp [pull, M.finish, Run, save, bind, M.bind, hF, ht, h1, h2, h3, fatalf, pure, hM]

/-- Claim C2, amended, at the example world with the format token `bogus`. -/
theorem C2_unknown_format_rejected_after_fetch_witness :
    (pull exConsts exWorld (exGlobals "bogus") exImage).outcome =
        .exited (.errorSaving (.unknownFormat "bogus")) ∧
      (pull exConsts exWorld (exGlobals "bogus") exImage).trace =
        (fetch exWorld (exGlobals "bogus") exImage).traceOf :=
  have h := (C2_unknown_format_rejected_after_fetch exConsts exWorld (exGlobals "bogus") exImage
    rfl (by decide)).2.2 (.tag exTag) exDesc { id := 3 } exWorld_fetchOk rfl
  ⟨h.1, h.2.1⟩

/-- Claim C3 as stated fails.  With the v1-layout format and a descriptor whose
`desc.ImageIndex()` succeeds while the `desc.Image()` of line 82 fails (an index with no
child for the default platform), the run exits on line 86 with "error pulling image ref":
the trace holds no `AppendIndex` call, and `desc.ImageIndex()` is never called.  And on
the run of the example world, where every call succeeds, the registry calls of the whole
trace are `remote.Get`, then `desc.Image()`, then `desc.ImageIndex()`: the image
interpretation of line 82 comes before the index interpretation of line 142. -/
theorem C3_counterexample_image_attempted_before_index :
    exWorldImageFails.descImageIndex exDesc = .ok { id := 9 } ∧
    (pull exConsts exWorldImageFails (exGlobals "v1-layout") exImage).outcome =
      .exited (.pullingImageRef "no child with platform linux/amd64") ∧
    (pull exConsts exWorldImageFails (exGlobals "v1-layout") exImage).trace.filter
      Event.isAppend = [] ∧
    Event.descImageIndex exDesc ∉
      (pull exConsts exWorldImageFails (exGlobals "v1-layout") exImage).trace ∧
    (pull exConsts exWorld (exGlobals "v1-layout") exImage).trace.filter Event.isFetch =
      [Event.remoteGet (.tag exTag) [], Event.descImage exDesc,
       Event.descImageIndex exDesc] :=
  ⟨rfl, by decide, by decide, by decide, by decide⟩

/-- Claim C3, amended: for the v1-layout format, once the fetch stage has succeeded, the
`desc.Image()` of line 82 included, and the layout has been opened or created as `p`, the
dispatcher calls `desc.ImageIndex()` first.  If it
succeeds, the rest of the run is that call, one `AppendIndex` on `p` and the two closing
log lines, and the only append call of the whole trace is that `AppendIndex`.  If it
fails and the `desc.Image()` of line 148 succeeds, the rest of the run is the index
attempt, the image attempt, one `AppendImage` on `p` and the closing log lines, and the
only append call is that `AppendImage`.  In both cases the annotations are the single pair
of the ref-name key and the reference string `image` as given. -/
theorem C3_layout_index_first_single_append (c : Consts) (w : World) (g : Globals)
    (image : String) (ref : Reference) (desc : Descriptor) (img : Image) (p : LayoutPath)
    (hc : c.distinct) (hf : FetchOk w image ref desc img)
    (hr : (resolveTag c ref).isSome = true)
    (hfmt : g.pullWriteFormat = c.FormatV1Layout)
    (hp : w.layoutFromPath g.pullSavePath = .ok p ∨
      ((∃ e, w.layoutFromPath g.pullSavePath = .error e) ∧
        w.layoutWrite g.pullSavePath = .ok p)) :
    ∃ opened,
      (opened = [Event.layoutFromPath g.pullSavePath] ∨
        opened = [Event.layoutFromPath g.pullSavePath, Event.layoutWrite g.pullSavePath]) ∧
      (∀ ii, w.descImageIndex desc = .ok ii →
        (pull c w g image).trace = (fetch w g image).traceOf ++ opened ++
          [Event.descImageIndex desc,
           Event.appendIndex p ii [(c.AnnotationRefName, image)],
           Event.logEndedSave, Event.logSavedInTo g.pullSavePath] ∧
        (pull c w g image).trace.filter Event.isAppend =
          [Event.appendIndex p ii [(c.AnnotationRefName, image)]]) ∧
      (∀ e im, w.descImageIndex desc = .error e → w.descImageFallback desc = .ok im →
        (pull c w g image).trace = (fetch w g image).traceOf ++ opened ++
          [Event.descImageIndex desc, Event.descImage desc,
           Event.appendImage p im [(c.AnnotationRefName, image)],
           Event.logEndedSave, Event.logSavedInTo g.pullSavePath] ∧
        (pull c w g image).trace.filter Event.isAppend =
          [Event.appendImage p im [(c.AnnotationRefName, image)]]) := by
  obtain ⟨h12, h13, h23⟩ := hc
  obtain ⟨t, ht⟩ := Option.isSome_iff_exists.mp hr
  have hF := fetch_ok w g image ref desc img hf
  have hA := fetch_filter_isAppend w g image
  rcases hp with hp | ⟨⟨e0, hp0⟩, hp⟩
  · refine ⟨[Event.layoutFromPath g.pullSavePath], Or.inl rfl, ?_, ?_⟩
    · intro ii hii
      simp [pull, M.finish, Run, save, bind, M.bind, hF, ht, hfmt, hp, hii, emit, pure, call_eq,
        fatalf, Ne.symm h13, Ne.symm h23, hA, Event.isAppend, List.filter_cons]
    · intro e im hii him
      simp [pull, M.finish, Run, save, bind, M.bind, hF, ht, hfmt, hp, hii, him, emit, pure,
        call_eq, fatalf, Ne.symm h13, Ne.symm h23, hA, Event.isAppend, List.filter_cons]
  · refine ⟨[Event.layoutFromPath g.pullSavePath, Event.layoutWrite g.pullSavePath],
      Or.inr rfl, ?_, ?_⟩
    · intro ii hii
      simp [pull, M.finish, Run, save, bind, M.bind, hF, ht, hfmt, hp, hp0, hii, emit, pure,
        call_eq, fatalf, Ne.symm h13, Ne.symm h23, hA, Event.isAppend, List.filter_cons]
    · intro e im hii him
      simp [pull, M.finish, Run, save, bind, M.bind, hF, ht, hfmt, hp, hp0, hii, him, emit,
        pure, call_eq, fatalf, Ne.symm h13, Ne.symm h23, hA, Event.isAppend, List.filter_cons]

/-- Claim C3, amended, at the example world, whose descriptor is an index and whose target path
holds a layout: the one append call is `AppendIndex` on the existing layout with the
annotation of the reference string. -/
theorem C3_layout_index_first_single_append_witness :
    (pull exConsts exWorld (exGlobals "v1-layout") exImage).trace.filter Event.isAppend =
      [Event.appendIndex { handle := "existing" } { id := 9 }
        [("org.opencontainers.image.ref.name", "registry.example.com/app:v1")]] := by
  obtain ⟨opened, -, h, -⟩ := C3_layout_index_first_single_append exConsts exWorld
    (exGlobals "v1-layout") exImage (.tag exTag) exDesc { id := 3 } { handle := "existing" }
    (by decide) exWorld_fetchOk rfl rfl (Or.inl rfl)
  exact (h { id := 9 } rfl).2

/-- Claim C4: for the v1-layout format, once the fetch stage has succeeded and the layout
has been opened or created, the run ends with the neither-image-nor-index `log.Fatalf`
exactly when both `desc.ImageIndex()` and the `desc.Image()` of the fallback fail; when
it ends that way the trace holds no `AppendIndex` and no `AppendImage` call. -/
theorem C4_neither_iff_both_interpretations_fail (c : Consts) (w : World) (g : Globals)
    (image : String) (ref : Reference) (desc : Descriptor) (img : Image) (p : LayoutPath)
    (hc : c.distinct) (hf : FetchOk w image ref desc img)
    (hr : (resolveTag c ref).isSome = true)
    (hfmt : g.pullWriteFormat = c.FormatV1Layout)
    (hp : w.layoutFromPath g.pullSavePath = .ok p ∨
      ((∃ e, w.layoutFromPath g.pullSavePath = .error e) ∧
        w.layoutWrite g.pullSavePath = .ok p)) :
    ((pull c w g image).outcome = .exited (.neitherImageNorIndex image) ↔
      (∃ e1, w.descImageIndex desc = .error e1) ∧
        (∃ e2, w.descImageFallback desc = .error e2)) ∧
    ((pull c w g image).outcome = .exited (.neitherImageNorIndex image) →
      (pull c w g image).trace.filter Event.isAppend = []) := by
  obtain ⟨h12, h13, h23⟩ := hc
  obtain ⟨t, ht⟩ := Option.isSome_iff_exists.mp hr
  have hF := fetch_ok w g image ref desc img hf
  have hA := fetch_filter_isAppend w g image
  rcases hp with hp | ⟨⟨e0, hp0⟩, hp⟩ <;>
  rcases hii : w.descImageIndex desc with e1 | ii <;>
  rcases him : w.descImageFallback desc with e2 | im <;>
  simp [pull, M.finish, Run, save, bind, M.bind, hF, ht, hfmt, hii, him, emit, pure, call_eq,
    fatalf, Ne.symm h13, Ne.symm h23, hA, Event.isAppend, List.filter_cons, *]

/-- Claim C4 at an example world in which both interpretations fail. -/
theorem C4_neither_iff_both_interpretations_fail_witness :
    (pull exConsts exWorldNeither (exGlobals "v1-layout") exImage).outcome =
      .exited (.neitherImageNorIndex exImage) :=
  (C4_neither_iff_both_interpretations_fail exConsts exWorldNeither (exGlobals "v1-layout")
    exImage (.tag exTag) exDesc { id := 3 } { handle := "existing" } (by decide)
    ⟨rfl, rfl, rfl, ⟨_, rfl⟩, rfl, ⟨_, rfl⟩, ⟨_, rfl⟩⟩ rfl rfl (Or.inl rfl)).1.mpr
    ⟨⟨_, rfl⟩, ⟨_, rfl⟩⟩

/-- Claim C5: for a reference that carries a tag, the tag resolution of lines 110-117
yields that tag itself, repository and tag string unchanged; and on a run whose fetch
stage succeeded, the only tar writer call is `v1tarball.WriteToFile` with that tag for
the v1-tarball format, and `legacytarball.Write` with that tag for the legacy-tarball
format once the output file is created. -/
theorem C5_tag_reference_resolves_to_itself (c : Consts) (w : World) (g : Globals)
    (image : String) (t : Tag) (desc : Descriptor) (img : Image)
    (hc : c.distinct) (hf : FetchOk w image (.tag t) desc img) :
    resolveTag c (.tag t) = some t ∧
    (g.pullWriteFormat = c.FormatV1Tarball →
      (pull c w g image).trace.filter Event.isTarWriter =
        [Event.v1WriteToFile g.pullSavePath t img]) ∧
    (g.pullWriteFormat = c.FormatLegacyTarball → ∀ f, w.osCreate g.pullSavePath = .ok f →
      (pull c w g image).trace.filter Event.isTarWriter = [Event.legacyWrite t img f]) := by
  obtain ⟨h12, h13, h23⟩ := hc
  have hF := fetch_ok w g image (.tag t) desc img hf
  have hA := fetch_filter_isTarWriter w g image
  refine ⟨rfl, ?_, ?_⟩
  · intro hfmt
    cases hw : w.v1WriteToFile g.pullSavePath t img <;>
    simp [pull, M.finish, Run, save, bind, M.bind, hF, resolveTag, hfmt, emit, pure, call_eq,
      fatalf, hA, Event.isTarWriter, List.filter_cons, hw]
  · intro hfmt f hcr
    simp [pull, M.finish, Run, save, bind, M.bind, hF, resolveTag, hfmt, emit, pure, call_eq,
      fatalf, hA, Event.isTarWriter, List.filter_cons, hcr, Ne.symm h12, deferCall]

/-- Claim C5 at the example world with the v1-tarball format: the writer receives the tag
`registry.example.com/app:v1` of the reference. -/
theorem C5_tag_reference_resolves_to_itself_witness :
    (pull exConsts exWorld (exGlobals "v1-tarball") exImage).trace.filter Event.isTarWriter =
      [Event.v1WriteToFile "/tmp/out" exTag { id := 3 }] :=
  (C5_tag_reference_resolves_to_itself exConsts exWorld (exGlobals "v1-tarball") exImage exTag
    exDesc { id := 3 } (by decide) exWorld_fetchOk).2.1 rfl

/-- Claim C6: for a reference that carries a digest, the tag resolution yields the pair of
the digest reference's repository, unchanged, and the placeholder tag `digestTag`; the
result is the same for any two digest values in the same repository, and resolving the
same reference twice gives equal results. -/
theorem C6_digest_reference_gets_placeholder_tag (c : Consts) (r : Repository)
    (dg dg2 : String) :
    resolveTag c (.digest { Repository := r, DigestStr := dg }) =
      some { Repository := r, TagStr := c.digestTag } ∧
    resolveTag c (.digest { Repository := r, DigestStr := dg }) =
      resolveTag c (.digest { Repository := r, DigestStr := dg2 }) ∧
    resolveTag c (.digest { Repository := r, DigestStr := dg }) =
      resolveTag c (.digest { Repository := r, DigestStr := dg }) :=
  ⟨rfl, rfl, rfl⟩

/-- Claim C7: on the non-simple path, when the manifest has been fetched and the
`desc.Image()` of line 82 fails, the run ends with the `log.Fatalf` "error pulling image
ref" and its trace holds no filesystem call: no tar writer is called and no file is
created.  This holds for every format token, the two tar formats among them. -/
theorem C7_image_failure_no_filesystem_write (c : Consts) (w : World) (g : Globals)
    (image : String) (ref : Reference) (desc : Descriptor) (e : String)
    (hs : w.apiOptions.1 = false) (hp : w.parseReference image = .ok ref)
    (hg : w.remoteGet ref w.apiOptions.2.2 = .ok desc)
    (hi : ∃ out, w.jsonIndent desc.Manifest = .ok out)
    (hd : w.descImage desc = .error e) :
    (pull c w g image).outcome = .exited (.pullingImageRef e) ∧
    (∀ ev ∈ (pull c w g image).trace, ev.isFilesystem = false) ∧
    (pull c w g image).trace.filter Event.isWriter = [] := by
  obtain ⟨out, hi⟩ := hi
  rcases hA : w.apiOptions with ⟨sim, msg, opts⟩
  rw [hA] at hs hg
  simp only at hs hg
  subst hs
  cases hv : (g.showInfo || g.verbose) <;>
  simp [pull, M.finish, Run, fetch, bind, M.bind, call_eq, emit, pure, fatalf, hA, hp, hg, hi,
    hd, hv, Event.isFilesystem, Event.isWriter, List.filter_cons]

/-- Claim C7 at an example world whose descriptor gives no image, with the legacy-tarball
format. -/
theorem C7_image_failure_no_filesystem_write_witness :
    (pull exConsts exWorldImageFails (exGlobals "legacy-tarball") exImage).outcome =
        .exited (.pullingImageRef "no child with platform linux/amd64") ∧
      (pull exConsts exWorldImageFails (exGlobals "legacy-tarball") exImage).trace.filter
        Event.isWriter = [] :=
  have h := C7_image_failure_no_filesystem_write exConsts exWorldImageFails
    (exGlobals "legacy-tarball") exImage (.tag exTag) exDesc
    "no child with platform linux/amd64" rfl rfl rfl ⟨_, rfl⟩ rfl
  ⟨h.1, h.2.2⟩

/-- Claim C8: on every run whose trace holds an `os.Create` call that succeeded with file
`f`, the run returns normally and its trace ends with the create, the legacy tar writer
call on `f`, the two closing log lines and the deferred `f.Close()`; nothing before the
create is a filesystem call.  This holds whether `legacytarball.Write` succeeds or
fails: no `log.Fatalf` follows a successful create. -/
theorem C8_legacy_file_closed_on_every_path (c : Consts) (w : World) (g : Globals)
    (image : String) (path : String) (f : File)
    (hcreate : Event.osCreate path ∈ (pull c w g image).trace)
    (hok : w.osCreate path = .ok f) :
    (pull c w g image).outcome = .returned ∧
    ∃ pre tag img, (pull c w g image).trace = pre ++
        [Event.osCreate path, Event.legacyWrite tag img f, Event.logEndedSave,
         Event.logSavedInTo g.pullSavePath, Event.fileClose f] ∧
      ∀ e ∈ pre, e.isFilesystem = false := by
  obtain ⟨tr, htr, h⟩ := fetch_spec w g image { trace := [], deferred := [] }
  have hN : ∀ q, Event.osCreate q ∉ tr := fun q hq => by
    have := htr _ hq
    simp [Event.isFilesystem] at this
  rcases hA : w.apiOptions with ⟨sim, msg, opts⟩
  rw [hA] at h
  rcases h with ⟨x, h, -⟩ | ⟨ref, desc, img, h⟩
  · simp [pull, M.finish, Run, bind, M.bind, h, hN] at hcreate
  cases sim
  · rcases ht : resolveTag c ref with _ | t
    · simp [pull, M.finish, Run, save, bind, M.bind, h, ht, fatalf, hN] at hcreate
    by_cases h1 : g.pullWriteFormat = c.FormatV1Tarball
    · cases hw : w.v1WriteToFile g.pullSavePath t img <;>
      simp [pull, M.finish, Run, save, bind, M.bind, h, ht, h1, hw, fatalf, emit, pure,
        hN] at hcreate
    by_cases h2 : g.pullWriteFormat = c.FormatLegacyTarball
    · have h1 : ¬ c.FormatLegacyTarball = c.FormatV1Tarball := h2 ▸ h1
      rcases hcr : w.osCreate g.pullSavePath with e | f1
      · simp [pull, M.finish, Run, save, bind, M.bind, h, ht, h1, h2, hcr, fatalf, emit, pure,
          call_eq, hN] at hcreate
        subst hcreate
        simp [hcr] at hok
      · simp [pull, M.finish, Run, save, bind, M.bind, h, ht, h1, h2, hcr, fatalf, emit, pure,
          call_eq, hN, deferCall] at hcreate
        subst hcreate
        rw [hcr] at hok
        cases hok
        refine ⟨?_, tr, t, img, ?_, htr⟩ <;>
        simp [pull, M.finish, Run, save, bind, M.bind, h, ht, h1, h2, hcr, fatalf, emit, pure,
          call_eq, deferCall]
    by_cases h3 : g.pullWriteFormat = c.FormatV1Layout
    · have h1 : ¬ c.FormatV1Layout = c.FormatV1Tarball := h3 ▸ h1
      have h2 : ¬ c.FormatV1Layout = c.FormatLegacyTarball := h3 ▸ h2
      exfalso
      rcases desc with _ | d
      · rcases hp : w.layoutFromPath g.pullSavePath with e0 | p <;>
        rcases hlw : w.layoutWrite g.pullSavePath with e1 | p1 <;>
        simp [pull, M.finish, Run, save, bind, M.bind, h, ht, h1, h2, h3, hp, hlw, fatalf,
          emit, pure, call_eq, hN, nilDeref] at hcreate
      · rcases hp : w.layoutFromPath g.pullSavePath with e0 | p <;>
        rcases hlw : w.layoutWrite g.pullSavePath with e1 | p1 <;>
        rcases hii : w.descImageIndex d with e2 | ii <;>
        rcases him : w.descImageFallback d with e3 | im <;>
        simp [pull, M.finish, Run, save, bind, M.bind, h, ht, h1, h2, h3, hp, hlw, hii, him,
          fatalf, emit, pure, call_eq, hN, nilDeref] at hcreate
    · simp [pull, M.finish, Run, save, bind, M.bind, h, ht, h1, h2, h3, fatalf, emit, pure,
        hN] at hcreate
  · cases hw : w.craneSave img image g.pullSavePath <;>
    simp [pull, M.finish, Run, save, bind, M.bind, h, hw, fatalf, emit, pure, hN] at hcreate

/-- Claim C8 at an example world in which the legacy tar writer fails after a successful
create: the run returns, and the trace ends as the claim says. -/
theorem C8_legacy_file_closed_on_every_path_witness :
    (pull exConsts exWorldLegacyWriteFails (exGlobals "legacy-tarball") exImage).outcome =
        .returned ∧
      ∃ pre tag img,
        (pull exConsts exWorldLegacyWriteFails (exGlobals "legacy-tarball") exImage).trace =
          pre ++ [Event.osCreate "/tmp/out", Event.legacyWrite tag img { fd := 5 },
            Event.logEndedSave, Event.logSavedInTo "/tmp/out", Event.fileClose { fd := 5 }] ∧
        ∀ e ∈ pre, e.isFilesystem = false :=
  C8_legacy_file_closed_on_every_path exConsts exWorldLegacyWriteFails
    (exGlobals "legacy-tarball") exImage "/tmp/out" { fd := 5 } (by decide) rfl

/-- Claim C9: for the v1-layout format, once the fetch stage has succeeded: the trace holds
the `layout.Write` of the empty index exactly when `layout.FromPath` fails; when it fails,
the trace is the fetch stage, then `FromPath`, then that `Write`, then the rest, and the
fetch stage holds no append, so the initialization precedes every append; when `FromPath`
returns the layout `p`, every `AppendIndex` and `AppendImage` call of the trace is on `p`;
and when both `FromPath` and the `Write` fail, the run ends with the `log.Fatalf` "could
not write to path" and the trace holds no append. -/
theorem C9_layout_created_iff_open_fails (c : Consts) (w : World) (g : Globals)
    (image : String) (ref : Reference) (desc : Descriptor) (img : Image)
    (hc : c.distinct) (hf : FetchOk w image ref desc img)
    (hr : (resolveTag c ref).isSome = true)
    (hfmt : g.pullWriteFormat = c.FormatV1Layout) :
    (Event.layoutWrite g.pullSavePath ∈ (pull c w g image).trace ↔
      ∃ e, w.layoutFromPath g.pullSavePath = .error e) ∧
    ((∃ e, w.layoutFromPath g.pullSavePath = .error e) →
      (∃ rest, (pull c w g image).trace = (fetch w g image).traceOf ++
        [Event.layoutFromPath g.pullSavePath, Event.layoutWrite g.pullSavePath] ++ rest) ∧
      (fetch w g image).traceOf.filter Event.isAppend = []) ∧
    (∀ p, w.layoutFromPath g.pullSavePath = .ok p →
      ∀ q ann, (∀ ii, Event.appendIndex q ii ann ∈ (pull c w g image).trace → q = p) ∧
        (∀ im, Event.appendImage q im ann ∈ (pull c w g image).trace → q = p)) ∧
    (∀ e0 e1, w.layoutFromPath g.pullSavePath = .error e0 →
      w.layoutWrite g.pullSavePath = .error e1 →
      (pull c w g image).outcome = .exited (.couldNotWritePath g.pullSavePath e1) ∧
      (pull c w g image).trace.filter Event.isAppend = []) := by
  obtain ⟨h12, h13, h23⟩ := hc
  obtain ⟨t, ht⟩ := Option.isSome_iff_exists.mp hr
  have hF := fetch_ok w g image ref desc img hf
  have hA := fetch_filter_isAppend w g image
  have hN1 := fetch_not_mem w g image (Event.layoutWrite g.pullSavePath) rfl
  have hN2 : ∀ q ii ann, Event.appendIndex q ii ann ∉ (fetch w g image).traceOf :=
    fun q ii ann => fetch_not_mem w g image _ rfl
  have hN3 : ∀ q im ann, Event.appendImage q im ann ∉ (fetch w g image).traceOf :=
    fun q im ann => fetch_not_mem w g image _ rfl
  rcases hp : w.layoutFromPath g.pullSavePath with e0 | p <;>
  rcases hlw : w.layoutWrite g.pullSavePath with e1 | p1 <;>
  rcases hii : w.descImageIndex desc with e2 | ii <;>
  rcases him : w.descImageFallback desc with e3 | im <;>
  simp [pull, M.finish, Run, save, bind, M.bind, hF, ht, hfmt, hii, him, emit, pure, call_eq,
    fatalf, Ne.symm h13, Ne.symm h23, hA, Event.isAppend, List.filter_cons, hN1, hN2, hN3, *]

/-- Claim C9 at an example world whose target path holds no layout: the run writes the
empty index. -/
theorem C9_layout_created_iff_open_fails_witness :
    Event.layoutWrite "/tmp/out" ∈
      (pull exConsts exWorldNoLayout (exGlobals "v1-layout") exImage).trace :=
  (C9_layout_created_iff_open_fails exConsts exWorldNoLayout (exGlobals "v1-layout") exImage
    (.tag exTag) exDesc { id := 3 } (by decide)
    ⟨rfl, rfl, rfl, ⟨_, rfl⟩, rfl, ⟨_, rfl⟩, ⟨_, rfl⟩⟩ rfl rfl).1.mpr ⟨_, rfl⟩

/-- Claim C10: when `apiOptions` selects the simple path, two runs that differ only in the
format token, known or not, have the same trace and the same outcome; the run never ends
with the unknown-format error nor with the "ref wasn't a tag or digest" `log.Fatalf`; and
when the fetch stage succeeds with image `img`, the only writer call of the trace is
`crane.Save(img, image, pullSavePath)` and the outcome is a normal return or "error
saving" as that call decides. -/
theorem C10_simple_path_ignores_format (c : Consts) (w : World) (g : Globals)
    (image : String) (f1 f2 : String) (hs : w.apiOptions.1 = true) :
    pull c w (g.withFormat f1) image = pull c w (g.withFormat f2) image ∧
    (∀ f, (pull c w (g.withFormat f1) image).outcome ≠
      .exited (.errorSaving (.unknownFormat f))) ∧
    (pull c w (g.withFormat f1) image).outcome ≠ .exited .notTagOrDigest ∧
    (∀ img, SimpleFetchOk w image img →
      (pull c w (g.withFormat f1) image).trace.filter Event.isWriter =
        [Event.craneSave img image g.pullSavePath] ∧
      (pull c w (g.withFormat f1) image).outcome =
        match w.craneSave img image g.pullSavePath with
        | none => .returned
        | some e => .exited (.errorSaving (.ext e))) := by
  have hE : fetch w (g.withFormat f2) image = fetch w (g.withFormat f1) image := rfl
  have hp1 : (g.withFormat f1).pullSavePath = g.pullSavePath := rfl
  have hp2 : (g.withFormat f2).pullSavePath = g.pullSavePath := rfl
  obtain ⟨tr, htr, h⟩ := fetch_spec w (g.withFormat f1) image { trace := [], deferred := [] }
  rw [hs] at h
  refine ⟨?_, ?_, ?_, ?_⟩
  · rcases h with ⟨x, h, -⟩ | ⟨ref, desc, img, h⟩
    · simp [pull, M.finish, Run, bind, M.bind, h, hE]
    · simp [pull, M.finish, Run, save, bind, M.bind, h, hE, hp1, hp2]
  · intro f
    rcases h with ⟨x, h, hx⟩ | ⟨ref, desc, img, h⟩
    · have hne : x ≠ .errorSaving (.unknownFormat f) := by
        rintro rfl
        simp [Fatal.fromFetch] at hx
      simpa [pull, M.finish, Run, bind, M.bind, h] using hne
    · cases hw : w.craneSave img image g.pullSavePath <;>
      simp [pull, M.finish, Run, save, bind, M.bind, h, hw, hp1, emit, pure, fatalf]
  · rcases h with ⟨x, h, hx⟩ | ⟨ref, desc, img, h⟩
    · have hne : x ≠ .notTagOrDigest := by
        rintro rfl
        simp [Fatal.fromFetch] at hx
      simpa [pull, M.finish, Run, bind, M.bind, h] using hne
    · cases hw : w.craneSave img image g.pullSavePath <;>
      simp [pull, M.finish, Run, save, bind, M.bind, h, hw, hp1, emit, pure, fatalf]
  · intro img hf
    obtain ⟨ref, hF⟩ := fetch_simple_ok w (g.withFormat f1) image img hf
      { trace := [], deferred := [] }
    have hA := fetch_filter_isWriter w (g.withFormat f1) image
    cases hw : w.craneSave img image g.pullSavePath <;>
    simp [pull, M.finish, Run, save, bind, M.bind, hF, hw, hp1, emit, pure, fatalf,
      hA, List.filter_cons, Event.isWriter]

/-- Claim C10 at an example world on the simple path: the run with the format `v1-layout`
and the run with the unknown token `bogus` are equal, and the writer call is
`crane.Save`. -/
theorem C10_simple_path_ignores_format_witness :
    pull exConsts exWorldSimple ((exGlobals "v1-tarball").withFormat "v1-layout") exImage =
        pull exConsts exWorldSimple ((exGlobals "v1-tarball").withFormat "bogus") exImage ∧
      (pull exConsts exWorldSimple ((exGlobals "v1-tarball").withFormat "v1-layout")
        exImage).trace.filter Event.isWriter =
        [Event.craneSave { id := 3 } exImage "/tmp/out"] :=
  have h := C10_simple_path_ignores_format exConsts exWorldSimple (exGlobals "v1-tarball")
    exImage "v1-layout" "bogus" rfl
  ⟨h.1, (h.2.2.2 { id := 3 } ⟨rfl, ⟨_, rfl⟩, ⟨_, _, rfl, rfl⟩, rfl, ⟨_, rfl⟩, ⟨_, rfl⟩⟩).1⟩

end Ocidist
